import Mathlib

/-!
Shallow embedding of the audit-log data-management core of the repository
(`backend/app/core/data_management.py`, `backend/app/core/scheduler.py`,
`backend/app/api/routes/data_management.py`).

Modelling conventions:
* Timestamps and clock values are `Int` seconds; `timedelta(days=n)` is
  `n * secondsPerDay`.  The source uses a UTC clock for record cutoffs and the
  local clock for file names and mtimes; the model uses a single clock value
  `now` passed to each operation.
* The live record store (the `audit_log` table) is a `List AuditLog` in the
  order the underlying store returns rows (insertion order).  `SELECT ... WHERE`
  is `List.filter`, `DELETE ... WHERE` keeps the complement.
* The archive and backup directories are lists of files carrying name
  (as `List Char`), mtime, byte size, and content.  Byte sizes of written files
  (gzip output, sqlite snapshot size) are given by abstract size functions in
  `FsParams`, since concrete byte counts depend on the external libraries.
* Text cells stored in a backup snapshot (output of `json.dumps` /
  `datetime.isoformat`) are modelled by the free datatype `SqlText`: the
  decoders `json.loads` / `datetime.fromisoformat` invert the corresponding
  encoders and fail on any other text (`SqlText.raw`), which models corrupt
  cells.
* Exceptions raised by an operation are modelled with `Except`; the live-store
  commit that can fail on a primary-key (identity) violation is modelled by the
  `idsConflict` test, matching the `id TEXT PRIMARY KEY` / `primary_key=True`
  declarations of the schema.
-/

namespace AuditData

/-- Seconds in a day: `timedelta(days=n)` is `n * secondsPerDay` seconds. -/
def secondsPerDay : Int := 86400

/-- One megabyte in bytes, the divisor used for every `*_mb` result field. -/
def megabyte : Rat := 1024 * 1024

/-- Errors of the data-management core (spec taxonomy, section 7).  The source
raises `FileNotFoundError` where the spec says `BackupNotFound`; database-level
failures (e.g. the commit-time integrity error on a duplicate identity) are
`storageError`. -/
inductive DataManagementError where
  | invalidPolicy
  | backupNotFound
  | storageError
deriving DecidableEq, Repr

/-- `DataRetentionPolicy` from `core/data_management.py`: five numeric fields,
stored by `__init__` exactly as given. -/
structure DataRetentionPolicy where
  retention_days : Int := 90
  archive_after_days : Int := 30
  compress_after_days : Int := 7
  max_log_size_mb : Int := 1000
  backup_interval_hours : Int := 24
deriving DecidableEq, Repr

/-- Embedding of calling the `DataRetentionPolicy` constructor.  The source
`__init__` (lines 23-35) assigns the five attributes and performs no
validation, so construction can never fail; the `Except` result type makes the
possibility of an `InvalidPolicy` failure expressible. -/
def constructPolicy (r a c m b : Int) : Except DataManagementError DataRetentionPolicy :=
  .ok { retention_days := r, archive_after_days := a, compress_after_days := c,
        max_log_size_mb := m, backup_interval_hours := b }

/-- Opaque content of a structured payload (`dict`-typed `before_state`,
`after_state`, `custom_metadata`); per spec section 9 these are treated as
opaque blobs by this core. -/
abbrev Payload := String

/-- An audit-log record (`AuditLog` in `models.py`).  Identities (`uuid.UUID`)
are opaque and modelled as `Nat`. -/
structure AuditLog where
  id : Nat
  user_id : Nat
  action : String
  resource_type : String
  resource_id : String
  ip_address : Option String
  user_agent : Option String
  before_state : Option Payload
  after_state : Option Payload
  custom_metadata : Option Payload
  severity : String
  tenant_id : Option Nat
  timestamp : Int
  session_id : Option String
deriving DecidableEq, Repr

/-- The live record store, in the order the underlying store returns rows. -/
abbrev Store := List AuditLog

/-- Result dict of `apply_retention_policy`. -/
structure RetentionResult where
  deleted_count : Nat
  cutoff_date : Int
deriving DecidableEq, Repr

/-- `cutoff_date = datetime.now(timezone.utc) - timedelta(days=policy.retention_days)`. -/
def retentionCutoff (now : Int) (p : DataRetentionPolicy) : Int :=
  now - p.retention_days * secondsPerDay

/-- `AuditLogDataManager.apply_retention_policy` (lines 53-72): one
`DELETE ... WHERE timestamp < cutoff` statement, then commit; returns the row
count affected and the cutoff used. -/
def apply_retention_policy (now : Int) (p : DataRetentionPolicy) (store : Store) :
    RetentionResult × Store :=
  let cutoff := retentionCutoff now p
  (⟨(store.filter (fun l => decide (l.timestamp < cutoff))).length, cutoff⟩,
   store.filter (fun l => !(decide (l.timestamp < cutoff))))

/-- C2 counterexample: constructing a policy with a negative `retention_days`
succeeds and stores `-1` unchanged; it does not fail with an `InvalidPolicy`
error as the claim states (no validation exists in the source constructor). -/
theorem constructPolicy_negative_counterexample :
    constructPolicy (-1) 30 7 1000 24 =
      .ok { retention_days := -1, archive_after_days := 30, compress_after_days := 7,
            max_log_size_mb := 1000, backup_interval_hours := 24 } := rfl

/-- C2 (amended): policy construction never fails; any integer values,
negative or not, are accepted and stored unchanged. -/
theorem constructPolicy_accepts_all_values (r a c m b : Int) :
    constructPolicy r a c m b =
      .ok { retention_days := r, archive_after_days := a, compress_after_days := c,
            max_log_size_mb := m, backup_interval_hours := b } := rfl

/-- C4: `apply_retention_policy` deletes exactly the live records with
`timestamp < now - retention_days` (in seconds), returns that deleted count
together with the cutoff used, leaves no record with `timestamp < cutoff` in
the store, and keeps every record whose timestamp is not below the cutoff — in
particular a record timestamped exactly at the cutoff is not deleted. -/
theorem apply_retention_policy_spec (now : Int) (p : DataRetentionPolicy) (store : Store) :
    (apply_retention_policy now p store).1 =
      ⟨(store.filter (fun l => decide (l.timestamp < retentionCutoff now p))).length,
        retentionCutoff now p⟩ ∧
    (apply_retention_policy now p store).2 =
      store.filter (fun l => !(decide (l.timestamp < retentionCutoff now p))) ∧
    (∀ l ∈ (apply_retention_policy now p store).2, ¬ l.timestamp < retentionCutoff now p) ∧
    (∀ l ∈ store, ¬ l.timestamp < retentionCutoff now p →
      l ∈ (apply_retention_policy now p store).2) ∧
    (∀ l ∈ store, l.timestamp = retentionCutoff now p →
      l ∈ (apply_retention_policy now p store).2) := by
  refine ⟨rfl, rfl, ?_, ?_, ?_⟩
  · intro l hl
    simp only [apply_retention_policy, List.mem_filter, Bool.not_eq_true',
      decide_eq_false_iff_not] at hl
    exact hl.2
  · intro l hl hts
    simp only [apply_retention_policy, List.mem_filter, Bool.not_eq_true',
      decide_eq_false_iff_not]
    exact ⟨hl, hts⟩
  · intro l hl hts
    simp only [apply_retention_policy, List.mem_filter, Bool.not_eq_true',
      decide_eq_false_iff_not]
    exact ⟨hl, by omega⟩

/-- A concrete audit-log record used by witnesses and counterexamples. -/
def mkRec (n : Nat) (t : Int) : AuditLog :=
  { id := n, user_id := 0, action := "create", resource_type := "item",
    resource_id := "1", ip_address := none, user_agent := none,
    before_state := none, after_state := none, custom_metadata := none,
    severity := "info", tenant_id := none, timestamp := t, session_id := none }

/-- Witness for C4 at a concrete input: policy with a one-day window, records
one second below the cutoff (deleted), exactly at the cutoff (kept), and above
it (kept). -/
theorem apply_retention_policy_spec_witness :
    (apply_retention_policy 86400 { retention_days := 1 }
        [mkRec 1 (-1), mkRec 2 0, mkRec 3 5]).1 = ⟨1, 0⟩ ∧
    (∀ l ∈ (apply_retention_policy 86400 { retention_days := 1 }
        [mkRec 1 (-1), mkRec 2 0, mkRec 3 5]).2, ¬ l.timestamp < retentionCutoff 86400 { retention_days := 1 }) := by
  refine ⟨by decide, ?_⟩
  exact (apply_retention_policy_spec 86400 { retention_days := 1 }
    [mkRec 1 (-1), mkRec 2 0, mkRec 3 5]).2.2.1

/-! ## Filesystem model and the archive writer -/

/-- Abstract sizes of files written through external libraries (gzip, sqlite3).
The concrete byte counts depend on those libraries; every operation is proved
for an arbitrary choice. -/
structure FsParams where
  gzipSize : Nat → Nat
  archiveFileSize : List AuditLog → Nat
  sqliteFileSize : Nat → Nat

/-- A file in the archive directory: name, modification time, byte size, and
(for files written by the archive writer) the sequence of serialized records,
one per line, in write order. -/
structure FsFile where
  name : List Char
  mtime : Int
  size : Nat
  records : List AuditLog
deriving DecidableEq, Repr

/-- Rendering of `datetime.now().strftime("%Y%m%d_%H%M%S")`: an injective
textual rendering of the clock value. -/
def strftimeSeconds (t : Int) : List Char := (toString t).toList

/-- The archive-writer filename prefix `audit_logs_`. -/
def archiveStem : List Char := ['a', 'u', 'd', 'i', 't', '_', 'l', 'o', 'g', 's', '_']

/-- The extension `.json`. -/
def jsonExt : List Char := ['.', 'j', 's', 'o', 'n']

/-- The extension `.gz`. -/
def gzExt : List Char := ['.', 'g', 'z']

/-- The extension `.json.gz`. -/
def jsonGzExt : List Char := ['.', 'j', 's', 'o', 'n', '.', 'g', 'z']

/-- Name of the file written by `archive_old_logs`:
`f"audit_logs_{timestamp}.json.gz"`. -/
def archiveFileNameChars (t : Int) : List Char :=
  archiveStem ++ strftimeSeconds t ++ jsonGzExt

/-- Result dict of `archive_old_logs`; the empty-selection early return (line
86) carries only `archived_count = 0` and `archive_file = None`, the other keys
are absent (`none`). -/
structure ArchiveResult where
  archived_count : Nat
  archive_file : Option (List Char)
  archive_size_mb : Option Rat
  archive_cutoff : Option Int
deriving DecidableEq, Repr

/-- `archive_cutoff = datetime.now(timezone.utc) - timedelta(days=policy.archive_after_days)`. -/
def archiveCutoff (now : Int) (p : DataRetentionPolicy) : Int :=
  now - p.archive_after_days * secondsPerDay

/-- `AuditLogDataManager.archive_old_logs` (lines 74-129): select live records
with `timestamp < cutoff` (no ORDER BY — rows come back in store order), early
return on an empty selection, otherwise write one serialized record per line to
a new `audit_logs_<ts>.json.gz` file, then delete the same predicate from the
store and commit.  `deleted_count` re-evaluates the identical predicate against
the unchanged store, so it equals the selection length in this single-threaded
model. -/
def archive_old_logs (fs : FsParams) (now : Int) (p : DataRetentionPolicy)
    (store : Store) (dir : List FsFile) : ArchiveResult × Store × List FsFile :=
  let cutoff := archiveCutoff now p
  let toArchive := store.filter (fun l => decide (l.timestamp < cutoff))
  if toArchive.isEmpty then
    (⟨0, none, none, none⟩, store, dir)
  else
    (⟨toArchive.length, some (archiveFileNameChars now),
        some ((fs.archiveFileSize toArchive : Rat) / megabyte), some cutoff⟩,
     store.filter (fun l => !(decide (l.timestamp < cutoff))),
     dir ++ [⟨archiveFileNameChars now, now, fs.archiveFileSize toArchive, toArchive⟩])

/-- Parameters used by concrete witnesses: identity gzip size, length-based
file sizes. -/
def fsParams0 : FsParams :=
  { gzipSize := fun n => n, archiveFileSize := List.length, sqliteFileSize := fun n => n }

/-- C3 counterexample: with `now = 10` and `archive_after_days = 0` the two
live records (timestamps 5 then 3, both below the cutoff) are written to the
archive file in store order `[5, 3]`, whose timestamp sequence is not sorted
ascending — the source `SELECT` has no ORDER BY, contradicting the claimed
deterministic timestamp-ascending file order. -/
theorem archive_old_logs_sorted_counterexample :
    ((archive_old_logs fsParams0 10 { archive_after_days := 0 }
        [mkRec 1 5, mkRec 2 3] []).2.2.map FsFile.records) = [[mkRec 1 5, mkRec 2 3]] ∧
    ¬ List.Chain' (fun a b => a ≤ b) ([mkRec 1 5, mkRec 2 3].map AuditLog.timestamp) := by
  refine ⟨rfl, ?_⟩
  intro h
  simp only [List.map, mkRec] at h
  rw [List.chain'_cons] at h
  exact absurd h.1 (by norm_num)

/-- C3 (amended): on a non-empty selection, `archive_old_logs` selects exactly
the live records with `timestamp < now - archive_after_days`, writes them to
the new archive file in the order the live store returns them (its storage
order, no sorting applied), deletes exactly that set from the store, and
reports the selection count, file name, file size and cutoff. -/
theorem archive_old_logs_writes_store_order (fs : FsParams) (now : Int)
    (p : DataRetentionPolicy) (store : Store) (dir : List FsFile)
    (h : store.filter (fun l => decide (l.timestamp < archiveCutoff now p)) ≠ []) :
    archive_old_logs fs now p store dir =
      (⟨(store.filter (fun l => decide (l.timestamp < archiveCutoff now p))).length,
          some (archiveFileNameChars now),
          some ((fs.archiveFileSize
            (store.filter (fun l => decide (l.timestamp < archiveCutoff now p))) : Rat) / megabyte),
          some (archiveCutoff now p)⟩,
       store.filter (fun l => !(decide (l.timestamp < archiveCutoff now p))),
       dir ++ [⟨archiveFileNameChars now, now,
          fs.archiveFileSize (store.filter (fun l => decide (l.timestamp < archiveCutoff now p))),
          store.filter (fun l => decide (l.timestamp < archiveCutoff now p))⟩]) := by
  rw [archive_old_logs, if_neg (by simpa [List.isEmpty_iff] using h)]

/-- Witness for C3 (amended) at a concrete input. -/
theorem archive_old_logs_writes_store_order_witness :
    ([mkRec 1 5, mkRec 2 3].filter
        (fun l => decide (l.timestamp < archiveCutoff 10 { archive_after_days := 0 })) ≠ []) ∧
    archive_old_logs fsParams0 10 { archive_after_days := 0 } [mkRec 1 5, mkRec 2 3] [] =
      (⟨2, some (archiveFileNameChars 10), some ((2 : Rat) / megabyte), some 10⟩,
       [], [⟨archiveFileNameChars 10, 10, 2, [mkRec 1 5, mkRec 2 3]⟩]) := by
  refine ⟨by decide, ?_⟩
  have h := archive_old_logs_writes_store_order fsParams0 10 { archive_after_days := 0 }
    [mkRec 1 5, mkRec 2 3] [] (by decide)
  simpa using h

/-- C8: running `archive_old_logs` twice in succession (same clock value, no
records added in between) archives 0 records on the second run, creates no
archive file, and returns the ordinary zero-count result (the early-return
branch, not an error): the second run returns exactly
`{archived_count := 0, archive_file := none}` and leaves store and directory
untouched. -/
theorem archive_old_logs_idempotent (fs : FsParams) (now : Int)
    (p : DataRetentionPolicy) (store : Store) (dir : List FsFile) :
    archive_old_logs fs now p (archive_old_logs fs now p store dir).2.1
        (archive_old_logs fs now p store dir).2.2 =
      (⟨0, none, none, none⟩,
       (archive_old_logs fs now p store dir).2.1,
       (archive_old_logs fs now p store dir).2.2) := by
  by_cases hemp :
      (store.filter (fun l => decide (l.timestamp < archiveCutoff now p))).isEmpty
  · have h1 : archive_old_logs fs now p store dir = (⟨0, none, none, none⟩, store, dir) := by
      rw [archive_old_logs, if_pos hemp]
    rw [h1]
    rw [archive_old_logs, if_pos hemp]
  · have h1 : (archive_old_logs fs now p store dir).2.1 =
        store.filter (fun l => !(decide (l.timestamp < archiveCutoff now p))) := by
      rw [archive_old_logs, if_neg hemp]
    have h2 : ((archive_old_logs fs now p store dir).2.1.filter
        (fun l => decide (l.timestamp < archiveCutoff now p))) = [] := by
      rw [h1, List.filter_filter]
      apply List.filter_eq_nil_iff.mpr
      intro l _
      by_cases hts : l.timestamp < archiveCutoff now p <;> simp [hts]
    rw [archive_old_logs, if_pos (by simp [List.isEmpty_iff, h2])]

/-! ## The archive compactor -/

/-- `Path.suffix`: the final `.`-separated extension of a filename (with the
dot), or `[]` when the name has no dot. -/
def pathSuffix (name : List Char) : List Char :=
  if name.any (fun c => decide (c = '.')) then
    '.' :: ((name.reverse.takeWhile (fun c => !(decide (c = '.')))).reverse)
  else []

/-- `Path.with_suffix`: drop the final extension and append the new one. -/
def pathWithSuffix (name newExt : List Char) : List Char :=
  name.take (name.length - (pathSuffix name).length) ++ newExt

/-- The glob pattern `audit_logs_*.json` of `compress_old_archives` (line 140):
a name matches when it is `audit_logs_` ++ anything ++ `.json`. -/
def archiveJsonGlob (name : List Char) : Bool :=
  archiveStem.isPrefixOf name && jsonExt.isSuffixOf name &&
    decide (archiveStem.length + jsonExt.length ≤ name.length)

/-- A name ending in `.json.gz` never ends in `.json`, hence never matches the
compactor's glob pattern. -/
theorem jsonExt_not_suffix_of_json_gz (l : List Char) :
    jsonExt.isSuffixOf (l ++ jsonGzExt) = false := by
  rw [Bool.eq_false_iff]
  intro h
  rw [List.isSuffixOf_iff_suffix] at h
  obtain ⟨t, ht⟩ := h
  have h2 := congrArg List.reverse ht
  simp only [List.reverse_append] at h2
  rw [show jsonExt.reverse = ['n', 'o', 's', 'j', '.'] from rfl,
      show jsonGzExt.reverse = ['z', 'g', '.', 'n', 'o', 's', 'j', '.'] from rfl] at h2
  simp at h2

/-- No name of the form `anything ++ .json.gz` matches `audit_logs_*.json`. -/
theorem archiveJsonGlob_json_gz (l : List Char) :
    archiveJsonGlob (l ++ jsonGzExt) = false := by
  simp [archiveJsonGlob, jsonExt_not_suffix_of_json_gz]

/-- Result dict of `compress_old_archives`. -/
structure CompressResult where
  compressed_count : Nat
  total_saved_mb : Rat
deriving DecidableEq, Repr

/-- `compress_cutoff = datetime.now() - timedelta(days=policy.compress_after_days)`. -/
def compressCutoff (now : Int) (p : DataRetentionPolicy) : Int :=
  now - p.compress_after_days * secondsPerDay

/-- A file the compactor's loop reaches: matches the glob and its mtime is
older than the cutoff. -/
def compressMatched (cutoff : Int) (f : FsFile) : Bool :=
  archiveJsonGlob f.name && decide (f.mtime < cutoff)

/-- A file the loop actually compresses: matched and not skipped by the
`suffix == '.gz'` already-compressed check (line 143). -/
def compressProcessed (cutoff : Int) (f : FsFile) : Bool :=
  compressMatched cutoff f && !(decide (pathSuffix f.name = gzExt))

/-- The compressed copy written beside a processed file:
`archive_file.with_suffix('.json.gz')`, created at the current time, size given
by the gzip model, same record content. -/
def gzCopy (fs : FsParams) (now : Int) (f : FsFile) : FsFile :=
  ⟨pathWithSuffix f.name jsonGzExt, now, fs.gzipSize f.size, f.records⟩

/-- Space saved for one processed file:
`(original_size - compressed_size) / (1024 * 1024)` — may be negative. -/
def compressSavedMB (fs : FsParams) (f : FsFile) : Rat :=
  ((f.size : Rat) - (fs.gzipSize f.size : Rat)) / megabyte

/-- `AuditLogDataManager.compress_old_archives` (lines 131-168): scan the
archive directory for `audit_logs_*.json` files older than the cutoff, skip
already-compressed ones, write a compressed copy beside each remaining one
(overwriting a file of the same name if present) and delete the original;
report the number compressed and the accumulated saved megabytes. -/
def compress_old_archives (fs : FsParams) (now : Int) (p : DataRetentionPolicy)
    (dir : List FsFile) : CompressResult × List FsFile :=
  (⟨(dir.filter (compressProcessed (compressCutoff now p))).length,
      ((dir.filter (compressProcessed (compressCutoff now p))).map (compressSavedMB fs)).sum⟩,
   dir.filter (fun f => !(compressProcessed (compressCutoff now p) f) &&
       !(((dir.filter (compressProcessed (compressCutoff now p))).map (gzCopy fs now)).any
           (fun g => decide (g.name = f.name)))) ++
     (dir.filter (compressProcessed (compressCutoff now p))).map (gzCopy fs now))

/-- Every file in the output directory of a compactor run fails the
processed-file test: survivors were not processed, and freshly written copies
end in `.json.gz`, which the glob never matches. -/
theorem compress_output_not_processed (fs : FsParams) (now : Int)
    (p : DataRetentionPolicy) (dir : List FsFile) :
    ∀ f ∈ (compress_old_archives fs now p dir).2,
      compressProcessed (compressCutoff now p) f = false := by
  intro f hf
  rw [compress_old_archives] at hf
  rcases List.mem_append.mp hf with hrem | hnew
  · have hpred := (List.mem_filter.mp hrem).2
    simp only [Bool.and_eq_true, Bool.not_eq_true'] at hpred
    exact hpred.1
  · obtain ⟨g, _, hg⟩ := List.mem_map.mp hnew
    have hname : f.name = pathWithSuffix g.name jsonGzExt := by rw [← hg]; rfl
    have hglob : archiveJsonGlob f.name = false := by
      rw [hname, pathWithSuffix]
      exact archiveJsonGlob_json_gz _
    simp [compressProcessed, compressMatched, hglob]

/-- C9: running `compress_old_archives` twice in succession (same clock value)
produces `compressed_count = 0` and `total_saved_mb = 0` on the second run and
leaves the directory exactly as the first run left it: every file the first
run compressed was replaced by its `.json.gz` copy, which the `audit_logs_*.json`
scan never matches again. -/
theorem compress_old_archives_idempotent (fs : FsParams) (now : Int)
    (p : DataRetentionPolicy) (dir : List FsFile) :
    compress_old_archives fs now p (compress_old_archives fs now p dir).2 =
      (⟨0, 0⟩, (compress_old_archives fs now p dir).2) := by
  have hall := compress_output_not_processed fs now p dir
  have hnil : (compress_old_archives fs now p dir).2.filter
      (compressProcessed (compressCutoff now p)) = [] :=
    List.filter_eq_nil_iff.mpr (fun f hf => by simp [hall f hf])
  conv_lhs => rw [compress_old_archives]
  rw [hnil]
  simp only [List.length_nil, List.map_nil, List.sum_nil, List.any_nil,
    Bool.not_false, Bool.and_true, List.append_nil]
  refine Prod.ext rfl ?_
  exact List.filter_eq_self.mpr (fun f hf => by simp [hall f hf])

/-- C10: on any archive-directory state whose files were all produced by the
core's own archive writer (names of the form `audit_logs_<ts>.json.gz`), the
compactor compresses nothing, saves nothing, and modifies no file — the
writer's `.json.gz` names never match the compactor's `audit_logs_*.json`
scan, so the compactor can only ever act on files placed there externally. -/
theorem compress_old_archives_noop_on_core_states (fs : FsParams) (now : Int)
    (p : DataRetentionPolicy) (dir : List FsFile)
    (h : ∀ f ∈ dir, ∃ t, f.name = archiveFileNameChars t) :
    compress_old_archives fs now p dir = (⟨0, 0⟩, dir) := by
  have hall : ∀ f ∈ dir, compressProcessed (compressCutoff now p) f = false := by
    intro f hf
    obtain ⟨t, ht⟩ := h f hf
    have hglob : archiveJsonGlob f.name = false := by
      rw [ht, archiveFileNameChars]
      exact archiveJsonGlob_json_gz _
    simp [compressProcessed, compressMatched, hglob]
  have hnil : dir.filter (compressProcessed (compressCutoff now p)) = [] :=
    List.filter_eq_nil_iff.mpr (fun f hf => by simp [hall f hf])
  rw [compress_old_archives, hnil]
  simp only [List.length_nil, List.map_nil, List.sum_nil, List.any_nil,
    Bool.not_false, Bool.and_true, List.append_nil]
  refine Prod.ext rfl ?_
  exact List.filter_eq_self.mpr (fun f hf => by simp [hall f hf])

/-- Witness for C10 at a concrete input: a directory holding one file the
archive writer would produce. -/
theorem compress_old_archives_noop_on_core_states_witness :
    (∀ f ∈ [(⟨archiveFileNameChars 0, 0, 3, []⟩ : FsFile)],
      ∃ t, f.name = archiveFileNameChars t) ∧
    compress_old_archives fsParams0 5 {} [⟨archiveFileNameChars 0, 0, 3, []⟩] =
      (⟨0, 0⟩, [⟨archiveFileNameChars 0, 0, 3, []⟩]) := by
  have h : ∀ f ∈ [(⟨archiveFileNameChars 0, 0, 3, []⟩ : FsFile)],
      ∃ t, f.name = archiveFileNameChars t := by
    intro f hf
    rw [List.mem_singleton.mp hf]
    exact ⟨0, rfl⟩
  exact ⟨h, compress_old_archives_noop_on_core_states fsParams0 5 {} _ h⟩

/-! ## Backup writer, restorer, and janitor -/

/-- A text cell stored in a backup snapshot.  `jsonOf` is the output of
`json.dumps` on a payload, `isoOf` the output of `datetime.isoformat` on a
timestamp; `raw` is any other (possibly corrupt) text, on which the decoders
`json.loads` / `datetime.fromisoformat` fail. -/
inductive SqlText where
  | jsonOf (p : Payload)
  | isoOf (t : Int)
  | raw (s : String)
deriving DecidableEq, Repr

/-- `json.loads` applied to a text cell: inverts `json.dumps`, raises (`none`)
on corrupt text. -/
def jsonLoads : SqlText → Option Payload
  | .jsonOf p => some p
  | _ => none

/-- `datetime.fromisoformat` applied to a text cell: inverts
`datetime.isoformat`, raises (`none`) on a bad timestamp. -/
def fromIsoformat : SqlText → Option Int
  | .isoOf t => some t
  | _ => none

/-- One row of the `audit_logs` table of a backup snapshot, mirroring the
`CREATE TABLE` of `create_backup` (lines 187-204).  `id TEXT PRIMARY KEY`;
the structured payload columns and the timestamp column hold text cells. -/
structure BackupRow where
  id : Nat
  user_id : Nat
  action : String
  resource_type : String
  resource_id : String
  ip_address : Option String
  user_agent : Option String
  before_state : Option SqlText
  after_state : Option SqlText
  custom_metadata : Option SqlText
  severity : String
  tenant_id : Option Nat
  timestamp : SqlText
  session_id : Option String
deriving DecidableEq, Repr

/-- The row `create_backup` inserts for a live record (lines 207-225):
payload columns are `json.dumps(...) if ... else None`, the timestamp column
is `log.timestamp.isoformat()`. -/
def toBackupRow (l : AuditLog) : BackupRow :=
  { id := l.id, user_id := l.user_id, action := l.action,
    resource_type := l.resource_type, resource_id := l.resource_id,
    ip_address := l.ip_address, user_agent := l.user_agent,
    before_state := l.before_state.map .jsonOf,
    after_state := l.after_state.map .jsonOf,
    custom_metadata := l.custom_metadata.map .jsonOf,
    severity := l.severity, tenant_id := l.tenant_id,
    timestamp := .isoOf l.timestamp, session_id := l.session_id }

/-- `json.loads(cell) if cell else None` — fails when a non-null cell is not
valid JSON. -/
def loadOptionalPayload : Option SqlText → Option (Option Payload)
  | none => some none
  | some t => (jsonLoads t).map some

/-- The body of the per-row `try` block of `restore_from_backup` (lines
266-284): reconstruct an `AuditLog` from a backup row; any decoding failure
raises, yielding `none` (the row is skipped and logged). -/
def reconstructAuditLog (row : BackupRow) : Option AuditLog := do
  let b ← loadOptionalPayload row.before_state
  let a ← loadOptionalPayload row.after_state
  let m ← loadOptionalPayload row.custom_metadata
  let t ← fromIsoformat row.timestamp
  pure { id := row.id, user_id := row.user_id, action := row.action,
         resource_type := row.resource_type, resource_id := row.resource_id,
         ip_address := row.ip_address, user_agent := row.user_agent,
         before_state := b, after_state := a, custom_metadata := m,
         severity := row.severity, tenant_id := row.tenant_id,
         timestamp := t, session_id := row.session_id }

/-- Reconstruction inverts the backup serialization: a row written by
`create_backup` restores to exactly the original record. -/
theorem reconstruct_toBackupRow (l : AuditLog) :
    reconstructAuditLog (toBackupRow l) = some l := by
  cases l with
  | mk id uid act rt ri ip ua bs as cm sev tid ts sid =>
    cases bs <;> cases as <;> cases cm <;>
      rfl

/-- Restoring the rows of a snapshot of a store recovers the store itself,
record for record, in order. -/
theorem filterMap_reconstruct_map_toBackupRow (store : Store) :
    (store.map toBackupRow).filterMap reconstructAuditLog = store := by
  induction store with
  | nil => rfl
  | cons l rest ih =>
    simp [List.filterMap_cons, reconstruct_toBackupRow, ih]

/-- A file in the backup directory. -/
structure BackupFile where
  name : List Char
  mtime : Int
  rows : List BackupRow
  size : Nat
deriving DecidableEq, Repr

/-- The backup-writer filename prefix `audit_logs_backup_`. -/
def backupStem : List Char :=
  ['a', 'u', 'd', 'i', 't', '_', 'l', 'o', 'g', 's', '_',
   'b', 'a', 'c', 'k', 'u', 'p', '_']

/-- The extension `.sqlite`. -/
def sqliteExt : List Char := ['.', 's', 'q', 'l', 'i', 't', 'e']

/-- Name of the file written by `create_backup`:
`f"audit_logs_backup_{timestamp}.sqlite"`. -/
def backupFileNameChars (t : Int) : List Char :=
  backupStem ++ strftimeSeconds t ++ sqliteExt

/-- Result dict of `create_backup`. -/
structure BackupResult where
  backup_file : List Char
  backup_size_mb : Rat
  log_count : Nat
  timestamp : List Char
deriving DecidableEq, Repr

/-- The snapshot file `create_backup` writes: all live records, serialized row
by row in store order. -/
def backupFileOf (fs : FsParams) (now : Int) (store : Store) : BackupFile :=
  ⟨backupFileNameChars now, now, store.map toBackupRow,
   fs.sqliteFileSize (store.map toBackupRow).length⟩

/-- `AuditLogDataManager.create_backup` (lines 170-239): full snapshot of the
live store into a fresh timestamp-named sqlite file appended to the backup
directory; reports path, size in MB, and the record count. -/
def create_backup (fs : FsParams) (now : Int) (store : Store)
    (bdir : List BackupFile) : BackupResult × List BackupFile :=
  (⟨backupFileNameChars now,
      ((backupFileOf fs now store).size : Rat) / megabyte,
      store.length, strftimeSeconds now⟩,
   bdir ++ [backupFileOf fs now store])

/-- Result dict of `restore_from_backup`. -/
structure RestoreResult where
  restored_count : Nat
  total_in_backup : Nat
deriving DecidableEq, Repr

/-- The commit of `restore_from_backup` violates the identity primary key of
the live store when a reconstructed record reuses an identity already live or
appearing twice among the reconstructed records. -/
def idsConflict (store : Store) (recs : List AuditLog) : Bool :=
  recs.any (fun r => store.any (fun s => decide (s.id = r.id))) ||
    !(decide (recs.map AuditLog.id).Nodup)

/-- `AuditLogDataManager.restore_from_backup` (lines 241-296).  The argument
`file` is the result of resolving the given path: `none` when no file exists
there (then `FileNotFoundError`, the spec's `BackupNotFound`, is raised before
any store access), otherwise the rows of the snapshot.  Each row is
reconstructed inside a per-row `try`; failures are skipped.  The final
`session.commit()` raises a storage error — leaving the store unchanged — when
the inserted identities collide with the store's primary key; otherwise the
reconstructed records are appended and the counts returned. -/
def restore_from_backup (store : Store) (file : Option (List BackupRow)) :
    Except DataManagementError RestoreResult × Store :=
  match file with
  | none => (.error .backupNotFound, store)
  | some rows =>
    if idsConflict store (rows.filterMap reconstructAuditLog) then
      (.error .storageError, store)
    else
      (.ok ⟨(rows.filterMap reconstructAuditLog).length, rows.length⟩,
       store ++ rows.filterMap reconstructAuditLog)

/-- Result dict of `cleanup_old_backups`. -/
structure CleanupResult where
  deleted_count : Nat
  freed_mb : Rat
  cutoff_days : Int
deriving DecidableEq, Repr

/-- A backup file the janitor deletes: matches `audit_logs_backup_*.sqlite`
and is older than the keep-window. -/
def cleanupMatched (cutoff : Int) (f : BackupFile) : Bool :=
  (backupStem.isPrefixOf f.name && sqliteExt.isSuffixOf f.name &&
    decide (backupStem.length + sqliteExt.length ≤ f.name.length)) &&
  decide (f.mtime < cutoff)

/-- `AuditLogDataManager.cleanup_old_backups` (lines 344-366): delete backup
files older than `now - keep_days`, accumulating the freed size. -/
def cleanup_old_backups (now : Int) (keep_days : Int) (bdir : List BackupFile) :
    CleanupResult × List BackupFile :=
  let cutoff := now - keep_days * secondsPerDay
  (⟨(bdir.filter (cleanupMatched cutoff)).length,
      ((bdir.filter (cleanupMatched cutoff)).map (fun f => (f.size : Rat) / megabyte)).sum,
      keep_days⟩,
   bdir.filter (fun f => !(cleanupMatched cutoff f)))

/-- C6: restoring from a path that resolves to no existing file fails with the
backup-not-found error and leaves live storage exactly unchanged. -/
theorem restore_from_backup_missing_file (store : Store) :
    restore_from_backup store none = (.error .backupNotFound, store) := rfl

/-- C5: round trip.  For a live store of `N` records (with the store's
identity-uniqueness invariant), restoring the snapshot `create_backup` writes
into an empty store succeeds with `restored_count = N` and
`total_in_backup = N` and yields exactly the original records (same identity,
fields, payloads and timestamps, in order); and restoring the same snapshot
into a store already holding those `N` records adds 0 rows — the live store is
left exactly as it was. -/
theorem backup_restore_roundtrip (fs : FsParams) (now : Int) (store : Store)
    (h : (store.map AuditLog.id).Nodup) :
    restore_from_backup [] (some (backupFileOf fs now store).rows) =
      (.ok ⟨store.length, store.length⟩, store) ∧
    (restore_from_backup store (some (backupFileOf fs now store).rows)).2 = store := by
  have hrows : (backupFileOf fs now store).rows = store.map toBackupRow := rfl
  have hrecs : ((backupFileOf fs now store).rows).filterMap reconstructAuditLog = store := by
    rw [hrows]; exact filterMap_reconstruct_map_toBackupRow store
  constructor
  · simp only [restore_from_backup]
    rw [hrecs]
    have hc : idsConflict [] store = false := by simp [idsConflict, h]
    rw [if_neg (by simp [hc])]
    rw [hrows]
    simp
  · simp only [restore_from_backup]
    rw [hrecs]
    cases store with
    | nil => simp [idsConflict]
    | cons a rest =>
      have hinner : (a :: rest).any (fun s => decide (s.id = a.id)) = true :=
        List.any_eq_true.mpr ⟨a, List.mem_cons_self a rest, by simp⟩
      have houter : (a :: rest).any
          (fun r => (a :: rest).any (fun s => decide (s.id = r.id))) = true :=
        List.any_eq_true.mpr ⟨a, List.mem_cons_self a rest, hinner⟩
      have hp : idsConflict (a :: rest) (a :: rest) = true := by
        simp [idsConflict, houter]
      rw [if_pos hp]

/-- Witness for C5 at a concrete input: a two-record store. -/
theorem backup_restore_roundtrip_witness :
    ([mkRec 1 5, mkRec 2 9].map AuditLog.id).Nodup ∧
    restore_from_backup []
        (some (backupFileOf fsParams0 10 [mkRec 1 5, mkRec 2 9]).rows) =
      (.ok ⟨2, 2⟩, [mkRec 1 5, mkRec 2 9]) ∧
    (restore_from_backup [mkRec 1 5, mkRec 2 9]
        (some (backupFileOf fsParams0 10 [mkRec 1 5, mkRec 2 9]).rows)).2 =
      [mkRec 1 5, mkRec 2 9] := by
  have h := backup_restore_roundtrip fsParams0 10 [mkRec 1 5, mkRec 2 9] (by decide)
  exact ⟨by decide, h.1, h.2⟩

/-- C7 counterexample: a backup file that exists and whose single row is
perfectly well-formed, restored into a store that already holds a record with
the same identity, makes the commit fail with a storage error — the operation
does not return success-with-counts for every existing backup file. -/
theorem restore_from_backup_success_counterexample :
    (restore_from_backup [mkRec 1 5] (some [toBackupRow (mkRec 1 5)])).1 =
      .error .storageError := rfl

/-- Counting lemma: every element of a list either survives a `filterMap` or
is dropped because the function returns `none` on it. -/
theorem length_filterMap_add_filter_isNone {α β : Type} (f : α → Option β) (l : List α) :
    l.length = (l.filterMap f).length + (l.filter (fun a => (f a).isNone)).length := by
  induction l with
  | nil => rfl
  | cons x xs ih =>
    cases hx : f x <;>
      simp only [List.filterMap_cons, List.filter_cons, hx, Option.isNone_none,
        Option.isNone_some, List.length_cons, if_true, if_false,
        Bool.false_eq_true, ite_false, ite_true] <;>
      omega

/-- C7 (amended): for every existing backup file whose reconstructed records
do not collide with the store's identity primary key, every row is read,
rows that fail to reconstruct are skipped without aborting the run, and the
operation returns success with `total_in_backup` = rows read,
`restored_count` = rows successfully reconstructed and inserted, and
`total_in_backup - restored_count` = the number of skipped corrupt rows. -/
theorem restore_from_backup_counts (store : Store) (rows : List BackupRow)
    (h : idsConflict store (rows.filterMap reconstructAuditLog) = false) :
    restore_from_backup store (some rows) =
      (.ok ⟨(rows.filterMap reconstructAuditLog).length, rows.length⟩,
       store ++ rows.filterMap reconstructAuditLog) ∧
    rows.length = (rows.filterMap reconstructAuditLog).length +
      (rows.filter (fun r => (reconstructAuditLog r).isNone)).length := by
  constructor
  · simp only [restore_from_backup]
    rw [if_neg (by simp [h])]
  · exact length_filterMap_add_filter_isNone reconstructAuditLog rows

/-- A backup row whose timestamp cell holds corrupt text, so that
`datetime.fromisoformat` fails on it. -/
def corruptRow : BackupRow :=
  { id := 2, user_id := 0, action := "create", resource_type := "item",
    resource_id := "1", ip_address := none, user_agent := none,
    before_state := none, after_state := none, custom_metadata := none,
    severity := "info", tenant_id := none, timestamp := .raw "garbage",
    session_id := none }

/-- Witness for C7 (amended) at a concrete input: one well-formed row and one
row with a corrupt timestamp cell; the corrupt row is skipped and the counts
add up. -/
theorem restore_from_backup_counts_witness :
    idsConflict []
      ([toBackupRow (mkRec 1 5), corruptRow].filterMap reconstructAuditLog) = false ∧
    restore_from_backup [] (some [toBackupRow (mkRec 1 5), corruptRow]) =
      (.ok ⟨1, 2⟩, [mkRec 1 5]) := by
  have h := restore_from_backup_counts [] [toBackupRow (mkRec 1 5), corruptRow] (by decide)
  refine ⟨by decide, ?_⟩
  rw [h.1]
  rfl

/-! ## The lifecycle orchestrator (`run_full_maintenance`) -/

/-- The state the maintenance stages act on: live store, archive directory,
backup directory. -/
structure World where
  store : Store
  archiveDir : List FsFile
  backupDir : List BackupFile
deriving DecidableEq, Repr

/-- The retention stage acting on the world. -/
def retentionW (now : Int) (p : DataRetentionPolicy) (w : World) :
    RetentionResult × World :=
  ((apply_retention_policy now p w.store).1,
   { w with store := (apply_retention_policy now p w.store).2 })

/-- The archive stage acting on the world. -/
def archiveW (fs : FsParams) (now : Int) (p : DataRetentionPolicy) (w : World) :
    ArchiveResult × World :=
  ((archive_old_logs fs now p w.store w.archiveDir).1,
   { w with store := (archive_old_logs fs now p w.store w.archiveDir).2.1,
            archiveDir := (archive_old_logs fs now p w.store w.archiveDir).2.2 })

/-- The compression stage acting on the world. -/
def compressW (fs : FsParams) (now : Int) (p : DataRetentionPolicy) (w : World) :
    CompressResult × World :=
  ((compress_old_archives fs now p w.archiveDir).1,
   { w with archiveDir := (compress_old_archives fs now p w.archiveDir).2 })

/-- The backup stage acting on the world. -/
def backupW (fs : FsParams) (now : Int) (w : World) : BackupResult × World :=
  ((create_backup fs now w.store w.backupDir).1,
   { w with backupDir := (create_backup fs now w.store w.backupDir).2 })

/-- The backup-cleanup stage acting on the world. -/
def cleanupW (now keep : Int) (w : World) : CleanupResult × World :=
  ((cleanup_old_backups now keep w.backupDir).1,
   { w with backupDir := (cleanup_old_backups now keep w.backupDir).2 })

/-- The aggregate result dict of the full-maintenance route
(`maintenance_tasks` of `api/routes/data_management.py`, lines 227-238). -/
structure MaintenanceReport where
  retention : RetentionResult
  archival : ArchiveResult
  compression : CompressResult
  backup : BackupResult
  cleanup : CleanupResult
deriving DecidableEq, Repr

/-- `run_full_maintenance` of `api/routes/data_management.py` (lines 200-238):
the five stages are invoked sequentially with no per-stage exception handling,
so an exception raised by a stage propagates, the remaining stages never run,
and the effects already committed by the earlier stages are kept.  `fail k`
injects the underlying storage/filesystem failure of stage `k` (a failing
stage is modelled as raising before committing any effect).  The scheduler
variant (`DataManagementScheduler._full_maintenance`, `core/scheduler.py`
lines 156-178) wraps the same five sequential calls in one `try` whose
`except` only logs: the error is swallowed instead of propagated, but the
remaining stages are equally skipped. -/
def run_full_maintenance (fs : FsParams) (now : Int) (p : DataRetentionPolicy)
    (backup_keep_days : Int) (fail : Nat → Bool) (w : World) :
    Except DataManagementError MaintenanceReport × World :=
  if fail 0 then (.error .storageError, w) else
  let w0 := (retentionW now p w).2
  if fail 1 then (.error .storageError, w0) else
  let w1 := (archiveW fs now p w0).2
  if fail 2 then (.error .storageError, w1) else
  let w2 := (compressW fs now p w1).2
  if fail 3 then (.error .storageError, w2) else
  let w3 := (backupW fs now w2).2
  if fail 4 then (.error .storageError, w3) else
  (.ok ⟨(retentionW now p w).1, (archiveW fs now p w0).1, (compressW fs now p w1).1,
        (backupW fs now w2).1, (cleanupW now backup_keep_days w3).1⟩,
   (cleanupW now backup_keep_days w3).2)

/-- The world transformation of maintenance stage `k` (0 = retention,
1 = archive, 2 = compress, 3 = backup, 4 = cleanup). -/
def maintenanceStep (fs : FsParams) (now : Int) (p : DataRetentionPolicy)
    (keep : Int) (k : Nat) (w : World) : World :=
  match k with
  | 0 => (retentionW now p w).2
  | 1 => (archiveW fs now p w).2
  | 2 => (compressW fs now p w).2
  | 3 => (backupW fs now w).2
  | _ => (cleanupW now keep w).2

/-- The world after the first `i` maintenance stages have run (in order),
none failing. -/
def worldAfterStages (fs : FsParams) (now : Int) (p : DataRetentionPolicy)
    (keep : Int) (i : Nat) (w : World) : World :=
  (List.range i).foldl (fun acc k => maintenanceStep fs now p keep k acc) w

/-- A fault oracle making exactly the archive stage (stage 1) raise. -/
def failArchiveStage : Nat → Bool := fun k => decide (k = 1)

/-- A starting world for the concrete orchestrator runs: one live record,
empty archive and backup directories. -/
def worldOneRecord : World := ⟨[mkRec 1 5], [], []⟩

/-- C1 counterexample: when the archive stage raises during a full-maintenance
run, the run returns a bare propagated error — not an aggregate result with
the failure recorded per stage — and the later stages did not run: the backup
directory stays empty even though the backup stage unconditionally creates a
snapshot file, and the archive directory stays empty.  This contradicts the
claim that every later stage still runs and the failure is captured in the
aggregate result. -/
theorem run_full_maintenance_independence_counterexample :
    (run_full_maintenance fsParams0 10 {} 30 failArchiveStage worldOneRecord).1 =
      .error .storageError ∧
    (run_full_maintenance fsParams0 10 {} 30 failArchiveStage worldOneRecord).2.backupDir = [] ∧
    (run_full_maintenance fsParams0 10 {} 30 failArchiveStage worldOneRecord).2.archiveDir = [] := by
  exact ⟨rfl, rfl, rfl⟩

/-- C1 (amended): when stage `i` of a full-maintenance run raises and the
stages before it did not, the orchestrator aborts: the error propagates (the
route returns it; the scheduler variant merely logs it), none of the stages
after `i` runs, and the world is exactly the one produced by the earlier
stages — their effects are kept, never rolled back. -/
theorem run_full_maintenance_stage_failure_aborts (fs : FsParams) (now : Int)
    (p : DataRetentionPolicy) (keep : Int) (fail : Nat → Bool) (w : World)
    (i : Nat) (hi : i < 5) (hf : fail i = true)
    (hprev : ∀ j, j < i → fail j = false) :
    run_full_maintenance fs now p keep fail w =
      (.error .storageError, worldAfterStages fs now p keep i w) := by
  interval_cases i <;>
    simp_all [run_full_maintenance, worldAfterStages, maintenanceStep, List.range_succ]

/-- Witness for C1 (amended) at a concrete input: the archive stage fails, the
run returns the propagated error and the world after the retention stage
alone. -/
theorem run_full_maintenance_stage_failure_aborts_witness :
    failArchiveStage 1 = true ∧ failArchiveStage 0 = false ∧
    run_full_maintenance fsParams0 10 {} 30 failArchiveStage worldOneRecord =
      (.error .storageError, worldAfterStages fsParams0 10 {} 30 1 worldOneRecord) := by
  have hprev : ∀ j, j < 1 → failArchiveStage j = false := by
    intro j hj
    have hj0 : j = 0 := by omega
    subst hj0
    decide
  exact ⟨by decide, by decide,
    run_full_maintenance_stage_failure_aborts fsParams0 10 {} 30 failArchiveStage
      worldOneRecord 1 (by omega) (by decide) hprev⟩

end AuditData
